import Mathlib

/-!
Shallow embedding of the spAIk audio-feedback service
(`src/audio_feedback/*.py`, `src/main.py`, `src/Aapp.py`).

Real-valued quantities computed by the Python code (speaking rate, pitch,
RMS, durations, decibel values) are modelled as rationals, except the
dB conversion which needs `Real.logb`.  Audio loading, ASR and the
numeric feature extraction are external library calls; the functions
below take their outputs (energy frame list, transcript, durations) as
arguments, exactly where the Python functions consume them.
-/

/- ------------------------------------------------------------------
   audio_feedback/speaking_rate.py
------------------------------------------------------------------ -/

/-- Helper for `pyWords`: scan the characters, accumulating the current word
in reverse; whitespace closes the current word (if any). -/
def splitWsAux : List Char → List Char → List String
  | [], acc => if acc = [] then [] else [⟨acc.reverse⟩]
  | c :: cs, acc =>
    if c.isWhitespace then
      if acc = [] then splitWsAux cs [] else ⟨acc.reverse⟩ :: splitWsAux cs []
    else splitWsAux cs (c :: acc)

/-- Python `asr_text.strip().split()`: split on runs of whitespace, dropping
empty fragments (argument-less `split` already ignores leading and trailing
whitespace, so the `strip` adds nothing). -/
def pyWords (s : String) : List String :=
  splitWsAux s.data []

/-- `calculate_speaking_rate` from `audio_feedback/speaking_rate.py`:
word count over duration in seconds, scaled to words per minute, with a
guard returning 0.0 for non-positive durations. -/
def calculate_speaking_rate (asr_text : String) (duration_sec : ℚ) : ℚ :=
  let word_count : ℕ := (pyWords asr_text).length
  if duration_sec ≤ 0 then 0
  else ((word_count : ℚ) / duration_sec) * 60

/- ------------------------------------------------------------------
   audio_feedback/analyze_audio.py (the pure derivations)
------------------------------------------------------------------ -/

/-- Step 3 of `analyze_audio_features`: the ASR-reported duration is used
when positive, otherwise the file duration measured by librosa. -/
def effective_duration (asr_duration duration : ℚ) : ℚ :=
  if asr_duration > 0 then asr_duration else duration

/-- Step 4 of `analyze_audio_features`: the speaking rate as stored in the
returned feature record. -/
def analyze_speaking_rate (transcript : String) (asr_duration duration : ℚ) : ℚ :=
  calculate_speaking_rate transcript (effective_duration asr_duration duration)

/-- Step 5 of `analyze_audio_features`: `np.mean(pitch_values)` when the
masked pitch candidate list is non-empty, else 0.  The argument is the
list `pitches[magnitudes > np.median(magnitudes)]`. -/
def avgPitchOf (pitch_values : List ℚ) : ℚ :=
  if pitch_values.length > 0 then pitch_values.sum / (pitch_values.length : ℚ) else 0

/- ------------------------------------------------------------------
   audio_feedback/feedback_generator.py
------------------------------------------------------------------ -/

def speedSlowMsg : String := "말속도가 조금 느린 편입니다. 더 활기차게 말해보세요."
def speedFastMsg : String := "말속도가 다소 빠릅니다. 천천히 또박또박 말하면 더 명확해집니다."
def speedOkMsg : String := "말속도가 적절합니다. 현재 속도를 유지하세요."
def pitchImpossibleMsg : String := "피치 분석이 불가능합니다."
def pitchLowMsg : String := "목소리가 다소 낮습니다. 좀 더 밝고 자신감 있는 톤을 유지해보세요."
def pitchHighMsg : String := "목소리가 조금 높습니다. 긴장을 줄이고 자연스럽게 말해보세요."
def pitchOkMsg : String := "목소리 톤이 안정적입니다."
def volumeQuietMsg : String := "음량이 너무 작습니다. 좀 더 크게 말하거나 마이크를 가까이 해보세요."
def volumeLoudMsg : String := "음량이 다소 큽니다. 조금만 톤을 낮춰도 좋습니다."
def volumeOkMsg : String := "음량 크기가 적당합니다. 현재 크기를 유지하세요."
def volumeImpossibleMsg : String := "음량 분석이 불가능합니다."

/-- Does the pattern (first argument) start the character list (second
argument)? -/
def charsMatchAt : List Char → List Char → Bool
  | [], _ => true
  | _ :: _, [] => false
  | p :: ps, c :: cs => p == c && charsMatchAt ps cs

/-- Does the pattern (second argument) occur anywhere in the character list
(first argument)? -/
def containsChars : List Char → List Char → Bool
  | [], pat => charsMatchAt pat []
  | c :: rest, pat => charsMatchAt pat (c :: rest) || containsChars rest pat

/-- Python substring membership `pat in s`. -/
def pyContains (s pat : String) : Bool := containsChars s.data pat.data

/-- The fields of the feature dict that `generate_audio_feedback` reads. -/
structure AudioFeatures where
  speaking_rate_wpm : ℚ
  avg_pitch_hz : ℚ
deriving DecidableEq

/-- The result dict built by `generate_audio_feedback`. -/
structure AudioFeedbackResult where
  speed_feedback : String
  speaking_rate_wpm : ℚ
  pitch_feedback : String
  avg_pitch_hz : ℚ
  volume_feedback : String
  avg_rms_db : ℚ
  summary : String
deriving DecidableEq

/-- `generate_audio_feedback` from `audio_feedback/feedback_generator.py`.
The `avg_rms_db` argument is a float or the string N/A in Python; here
`Option ℚ` (`none` = not a number, so the `isinstance` check fails). -/
def generate_audio_feedback (features : AudioFeatures) (avg_rms_db : Option ℚ) :
    AudioFeedbackResult :=
  let speaking_rate_wpm := features.speaking_rate_wpm
  let speed_feedback :=
    if speaking_rate_wpm < 110 then speedSlowMsg
    else if speaking_rate_wpm > 160 then speedFastMsg
    else speedOkMsg
  let avg_pitch_hz := features.avg_pitch_hz
  let pitch_feedback :=
    if avg_pitch_hz = 0 then pitchImpossibleMsg
    else if avg_pitch_hz < 100 then pitchLowMsg
    else if avg_pitch_hz > 250 then pitchHighMsg
    else pitchOkMsg
  let volume_feedback :=
    match avg_rms_db with
    | some db =>
        if db < -20 then volumeQuietMsg
        else if db > -10 then volumeLoudMsg
        else volumeOkMsg
    | none => volumeImpossibleMsg
  let avg_rms_db_val :=
    match avg_rms_db with
    | some db => db
    | none => 0
  let feedback_list := [speed_feedback, pitch_feedback, volume_feedback]
  let summary_parts := feedback_list.filter (fun f => !(pyContains f ("불가능")))
  let summary :=
    if summary_parts = [] then String.intercalate ("\n") feedback_list
    else String.intercalate ("\n") summary_parts
  ⟨speed_feedback, speaking_rate_wpm, pitch_feedback, avg_pitch_hz,
    volume_feedback, avg_rms_db_val, summary⟩

/- ------------------------------------------------------------------
   main.py : convert_rms_to_db
------------------------------------------------------------------ -/

/-- `convert_rms_to_db` from `src/main.py`: non-positive RMS is clamped to
the floor -120.0 dB, otherwise 20 * log10(rms). -/
noncomputable def convert_rms_to_db (rms_value : ℝ) : ℝ :=
  if rms_value ≤ 0 then -120 else 20 * Real.logb 10 rms_value

/- ------------------------------------------------------------------
   audio_feedback/stuttering_detector.py
------------------------------------------------------------------ -/

def zeroDurationMsg : String := "영상 길이가 짧아 말더듬 횟수를 정확히 평가하기 어렵습니다."

/-- Message for clips whose per-minute evaluation is meaningless (under six
seconds).  The Python f-string renders the duration with one-decimal
formatting and interpolates the count; the model renders the raw values. -/
def shortDurationMsg (total_duration_seconds : ℚ) (stuttering_counts : ℕ) : String :=
  "영상 길이가 짧아 (약 " ++ toString total_duration_seconds ++ "초) 말더듬 횟수("
    ++ toString stuttering_counts ++ "회)를 분당 기준으로 평가하기 어렵습니다."

def noStutterMsg : String :=
  "✅ 말씀하시는 동안 더듬거나 멈칫거림이 전혀 없었습니다. 매우 안정적인 발화였습니다."
def fewStutterMsg : String :=
  "💬 말씀하시는 동안 더듬거나 멈칫거림이 거의 없었습니다. 발화가 매우 자연스러웠습니다."
def someStutterMsg : String :=
  "⚠️ 말씀하시는 동안 가끔 더듬거나 멈칫거림이 있었습니다. 조금 더 침착하게 발화 속도를 조절해 보세요."
def manyStutterMsg : String :=
  "❌ 말씀하시는 동안 더듬거나 멈칫거림이 다소 많았습니다. 긴장을 풀고 천천히 말하는 연습이 필요합니다. 답변 내용을 미리 정리하면 도움이 됩니다."

/-- `get_stuttering_feedback` from `audio_feedback/stuttering_detector.py`.
Python literals 0.1 and 0.5 are the exact rationals 1/10 and 1/2. -/
def get_stuttering_feedback (stuttering_counts : ℕ) (total_duration_seconds : ℚ) : String :=
  if total_duration_seconds ≤ 0 then zeroDurationMsg
  else
    let total_duration_minutes := total_duration_seconds / 60
    if total_duration_minutes < 1/10 then
      shortDurationMsg total_duration_seconds stuttering_counts
    else
      let stuttering_per_minute := (stuttering_counts : ℚ) / total_duration_minutes
      if stuttering_counts = 0 then noStutterMsg
      else if stuttering_per_minute < 1/2 then fewStutterMsg
      else if stuttering_per_minute < 2 then someStutterMsg
      else manyStutterMsg

/-- The loop at lines 48-50 of `stuttering_detector.py`: walk the frame list
keeping the previous flag, counting positions where the current frame is a
stutter frame and the previous one is not. -/
def stutterLoop : Bool → List Bool → ℕ
  | _, [] => 0
  | prev, b :: rest => (if b && !prev then 1 else 0) + stutterLoop b rest

/-- The count accumulated by the loop, starting from index 1 with index 0 as
the first previous frame (an empty or singleton list yields 0). -/
def countStutters (stutter_frames : List Bool) : ℕ :=
  match stutter_frames with
  | [] => 0
  | b0 :: rest => stutterLoop b0 rest

/-- The dict returned by `detect_stuttering` on the success path. -/
structure StutterResult where
  stutter_count : ℕ
  stutter_rate_per_sec : ℚ
  stuttering_feedback : String
deriving DecidableEq

/-- `detect_stuttering` from `audio_feedback/stuttering_detector.py`, given
the RMS energy frames `librosa.feature.rms(...)` and the clip duration
`librosa.get_duration(...)` that the library calls produce.  A frame is a
stutter frame when its energy is strictly below the threshold. -/
def detect_stuttering (energy : List ℚ) (duration_seconds : ℚ)
    (threshold : ℚ := 1/100) : StutterResult :=
  let stutter_frames := energy.map (fun e => decide (e < threshold))
  let count := countStutters stutter_frames
  let stutter_rate_per_sec := if duration_seconds > 0 then (count : ℚ) / duration_seconds else 0
  ⟨count, stutter_rate_per_sec, get_stuttering_feedback count duration_seconds⟩

/-- Claim-side characterisation: the number of indices i with 1 ≤ i < length
such that frame i is below threshold and frame i-1 is not. -/
def risingEdgeCount (flags : List Bool) : ℕ :=
  (List.range flags.length).countP
    (fun i => decide (1 ≤ i) && flags.getD i false && !(flags.getD (i - 1) false))

/- ------------------------------------------------------------------
   Aapp.py : notify_status
------------------------------------------------------------------ -/

/-- Attempt outcome as observed by `notify_status`: `none` models the POST
raising an exception, `some c` models a response with HTTP status code c. -/
def is2xx (res : Option ℕ) : Bool :=
  match res with
  | some code => decide (200 ≤ code) && decide (code < 300)
  | none => false

/-- Observable behaviour of one `notify_status` call: how many POSTs were
performed, which delays were slept, and the returned boolean. -/
structure NotifyTrace where
  posts : ℕ
  sleeps : List ℚ
  result : Bool
deriving DecidableEq

/-- The retry loop body of `notify_status`: `rem` counts the attempts still
allowed (the for-loop runs attempts 1..retries); `rem = 1` means this is the
final attempt, so no sleep follows a failure.  `sleeps` accumulates in
reverse. -/
def notifyAux (responses : ℕ → Option ℕ) :
    ℕ → ℕ → ℚ → ℕ → List ℚ → NotifyTrace
  | 0, _, _, posts, sleeps => ⟨posts, sleeps.reverse, false⟩
  | rem + 1, attempt, delay, posts, sleeps =>
    if is2xx (responses attempt) then ⟨posts + 1, sleeps.reverse, true⟩
    else if rem = 0 then ⟨posts + 1, sleeps.reverse, false⟩
    else notifyAux responses rem (attempt + 1) (delay * 2) (posts + 1) (delay :: sleeps)

/-- `notify_status` from `src/Aapp.py`, parameterised by the outcome of the
POST on each attempt number.  `delay` starts at 1.0 and doubles after each
failed, non-final attempt; the function never raises. -/
def notify_status (responses : ℕ → Option ℕ) (retries : ℕ := 3) : NotifyTrace :=
  notifyAux responses retries 1 1 0 []

/- ------------------------------------------------------------------
   Aapp.py : process_audio
------------------------------------------------------------------ -/

/-- Outcome of the `audiomain.amain` call inside the try-block: a dict
result, a non-dict result (which the code turns into a ValueError), or an
exception carrying a message and a formatted traceback. -/
inductive AmainOutcome (α : Type) where
  | dictResult (r : α)
  | nonDictResult
  | raised (msg : String) (trace : String)
deriving DecidableEq

/-- The JSON payload handed to `notify_status` by `process_audio`.  The
analysis result dict is kept abstract as α. -/
structure CallbackPayload (α : Type) where
  analysisId : String
  videoId : String
  status : String
  message : Option String
  result : Option α
deriving DecidableEq

/-- Observable behaviour of `process_audio`: the sequence of `set_status`
updates and the payload passed to `notify_status`. -/
structure ProcessTrace (α : Type) where
  statusUpdates : List String
  callback : CallbackPayload α
deriving DecidableEq

def notDictMsg : String := "amain() 결과 형식이 dict가 아닙니다."

/-- Python slicing `s[:n]` over code points. -/
def pySlice (s : String) (n : ℕ) : String := ⟨s.data.take n⟩

/-- The failure message built in the except-branch of `process_audio`:
`f-string of e` plus blank line plus traceback, truncated to 4000 chars. -/
def failMessage (msg trace : String) : String :=
  pySlice (msg ++ "\n\n" ++ trace) 4000

/-- `process_audio` from `src/Aapp.py`, as a function of the download
outcome and the `amain` outcome.  `errTrace` stands for the
`traceback.format_exc()` text captured when the non-dict ValueError is
raised.  The function is total: every path ends in a status update and a
callback payload, so no exception escapes to the host process. -/
def process_audio {α : Type} (downloadOk : Bool) (amain : AmainOutcome α)
    (errTrace : String) (analysis_id presentation_id : String) : ProcessTrace α :=
  if !downloadOk then
    ⟨["IN_PROGRESS", "FAILED"],
      ⟨analysis_id, presentation_id, "FAILED", some ("Download failed"), none⟩⟩
  else
    match amain with
    | .dictResult result_data =>
        ⟨["IN_PROGRESS", "COMPLETED"],
          ⟨analysis_id, presentation_id, "COMPLETED", none, some result_data⟩⟩
    | .nonDictResult =>
        ⟨["IN_PROGRESS", "FAILED"],
          ⟨analysis_id, presentation_id, "FAILED",
            some (failMessage notDictMsg errTrace), none⟩⟩
    | .raised msg trace =>
        ⟨["IN_PROGRESS", "FAILED"],
          ⟨analysis_id, presentation_id, "FAILED",
            some (failMessage msg trace), none⟩⟩

/- ------------------------------------------------------------------
   Helper lemmas
------------------------------------------------------------------ -/

/-- The stutter loop, started with `prev` as the frame before the list,
counts the indices j of the list whose frame is set while its predecessor
in `prev :: l` is not. -/
lemma stutterLoop_eq_countP (l : List Bool) : ∀ prev : Bool,
    stutterLoop prev l =
      (List.range l.length).countP
        (fun j => (prev :: l).getD (j + 1) false && !((prev :: l).getD j false)) := by
  induction l with
  | nil => intro prev; simp [stutterLoop]
  | cons b rest ih =>
    intro prev
    rw [stutterLoop, List.length_cons, List.range_succ_eq_map, List.countP_cons,
      List.countP_map, ih b]
    have hfun :
        ((fun j => (prev :: b :: rest).getD (j + 1) false &&
            !((prev :: b :: rest).getD j false)) ∘ Nat.succ) =
          fun j => (b :: rest).getD (j + 1) false && !((b :: rest).getD j false) := by
      funext j
      simp [Function.comp, List.getD_cons_succ]
    rw [hfun]
    simp [List.getD_cons_succ, List.getD_cons_zero, Nat.add_comm]

/-- The loop of `detect_stuttering` computes exactly the number of rising
edges of the boolean frame sequence. -/
lemma countStutters_eq_risingEdgeCount (flags : List Bool) :
    countStutters flags = risingEdgeCount flags := by
  cases flags with
  | nil => rfl
  | cons b0 rest =>
    rw [countStutters, stutterLoop_eq_countP, risingEdgeCount, List.length_cons,
      List.range_succ_eq_map, List.countP_cons, List.countP_map]
    have hfun :
        ((fun i => decide (1 ≤ i) && (b0 :: rest).getD i false &&
            !((b0 :: rest).getD (i - 1) false)) ∘ Nat.succ) =
          fun j => (b0 :: rest).getD (j + 1) false && !((b0 :: rest).getD j false) := by
      funext j
      simp [Function.comp, Nat.succ_le_succ, List.getD_cons_succ]
    rw [hfun]
    simp

/-- The speed feedback field as a three-way select. -/
lemma speed_feedback_eq (features : AudioFeatures) (db : Option ℚ) :
    (generate_audio_feedback features db).speed_feedback =
      if features.speaking_rate_wpm < 110 then speedSlowMsg
      else if features.speaking_rate_wpm > 160 then speedFastMsg
      else speedOkMsg := rfl

/-- The pitch feedback field as a four-way select. -/
lemma pitch_feedback_eq (features : AudioFeatures) (db : Option ℚ) :
    (generate_audio_feedback features db).pitch_feedback =
      if features.avg_pitch_hz = 0 then pitchImpossibleMsg
      else if features.avg_pitch_hz < 100 then pitchLowMsg
      else if features.avg_pitch_hz > 250 then pitchHighMsg
      else pitchOkMsg := rfl

/-- The volume feedback field as a three-way select, numeric dB case. -/
lemma volume_feedback_eq (features : AudioFeatures) (db : ℚ) :
    (generate_audio_feedback features (some db)).volume_feedback =
      if db < -20 then volumeQuietMsg
      else if db > -10 then volumeLoudMsg
      else volumeOkMsg := rfl

lemma speed_slow_iff (features : AudioFeatures) (db : Option ℚ) :
    (generate_audio_feedback features db).speed_feedback = speedSlowMsg ↔
      features.speaking_rate_wpm < 110 := by
  rw [speed_feedback_eq]
  split_ifs with h1 h2
  · exact iff_of_true rfl h1
  · exact iff_of_false (by decide) h1
  · exact iff_of_false (by decide) h1

lemma speed_fast_iff (features : AudioFeatures) (db : Option ℚ) :
    (generate_audio_feedback features db).speed_feedback = speedFastMsg ↔
      160 < features.speaking_rate_wpm := by
  rw [speed_feedback_eq]
  split_ifs with h1 h2
  · exact iff_of_false (by decide) (by intro hb; exact absurd h1 (by linarith))
  · exact iff_of_true rfl h2
  · exact iff_of_false (by decide) h2

lemma speed_ok_iff (features : AudioFeatures) (db : Option ℚ) :
    (generate_audio_feedback features db).speed_feedback = speedOkMsg ↔
      110 ≤ features.speaking_rate_wpm ∧ features.speaking_rate_wpm ≤ 160 := by
  rw [speed_feedback_eq]
  split_ifs with h1 h2
  · exact iff_of_false (by decide) (by rintro ⟨ha, -⟩; exact absurd ha (not_le.mpr h1))
  · exact iff_of_false (by decide) (by rintro ⟨-, hb⟩; exact absurd hb (not_le.mpr h2))
  · exact iff_of_true rfl ⟨not_lt.mp h1, not_lt.mp h2⟩

lemma pitch_low_iff (features : AudioFeatures) (db : Option ℚ) :
    (generate_audio_feedback features db).pitch_feedback = pitchLowMsg ↔
      features.avg_pitch_hz ≠ 0 ∧ features.avg_pitch_hz < 100 := by
  rw [pitch_feedback_eq]
  split_ifs with h0 h1 h2
  · exact iff_of_false (by decide) (by rintro ⟨ha, -⟩; exact ha h0)
  · exact iff_of_true rfl ⟨h0, h1⟩
  · exact iff_of_false (by decide) (by rintro ⟨-, hb⟩; exact h1 hb)
  · exact iff_of_false (by decide) (by rintro ⟨-, hb⟩; exact h1 hb)

lemma pitch_high_iff (features : AudioFeatures) (db : Option ℚ) :
    (generate_audio_feedback features db).pitch_feedback = pitchHighMsg ↔
      250 < features.avg_pitch_hz := by
  rw [pitch_feedback_eq]
  split_ifs with h0 h1 h2
  · exact iff_of_false (by decide) (by intro hb; rw [h0] at hb; exact absurd hb (by norm_num))
  · exact iff_of_false (by decide) (by intro hb; exact absurd h1 (by linarith))
  · exact iff_of_true rfl h2
  · exact iff_of_false (by decide) h2

lemma pitch_ok_iff (features : AudioFeatures) (db : Option ℚ) :
    (generate_audio_feedback features db).pitch_feedback = pitchOkMsg ↔
      100 ≤ features.avg_pitch_hz ∧ features.avg_pitch_hz ≤ 250 := by
  rw [pitch_feedback_eq]
  split_ifs with h0 h1 h2
  · exact iff_of_false (by decide)
      (by rintro ⟨ha, -⟩; rw [h0] at ha; exact absurd ha (by norm_num))
  · exact iff_of_false (by decide) (by rintro ⟨ha, -⟩; exact absurd ha (not_le.mpr h1))
  · exact iff_of_false (by decide) (by rintro ⟨-, hb⟩; exact absurd hb (not_le.mpr h2))
  · exact iff_of_true rfl ⟨not_lt.mp h1, not_lt.mp h2⟩

lemma volume_quiet_iff (features : AudioFeatures) (db : ℚ) :
    (generate_audio_feedback features (some db)).volume_feedback = volumeQuietMsg ↔
      db < -20 := by
  rw [volume_feedback_eq]
  split_ifs with h1 h2
  · exact iff_of_true rfl h1
  · exact iff_of_false (by decide) h1
  · exact iff_of_false (by decide) h1

lemma volume_loud_iff (features : AudioFeatures) (db : ℚ) :
    (generate_audio_feedback features (some db)).volume_feedback = volumeLoudMsg ↔
      -10 < db := by
  rw [volume_feedback_eq]
  split_ifs with h1 h2
  · exact iff_of_false (by decide) (by intro hb; exact absurd h1 (by linarith))
  · exact iff_of_true rfl h2
  · exact iff_of_false (by decide) h2

lemma volume_ok_iff (features : AudioFeatures) (db : ℚ) :
    (generate_audio_feedback features (some db)).volume_feedback = volumeOkMsg ↔
      -20 ≤ db ∧ db ≤ -10 := by
  rw [volume_feedback_eq]
  split_ifs with h1 h2
  · exact iff_of_false (by decide) (by rintro ⟨ha, -⟩; exact absurd ha (not_le.mpr h1))
  · exact iff_of_false (by decide) (by rintro ⟨-, hb⟩; exact absurd hb (not_le.mpr h2))
  · exact iff_of_true rfl ⟨not_lt.mp h1, not_lt.mp h2⟩

/- ------------------------------------------------------------------
   Claim theorems
------------------------------------------------------------------ -/

/-- C4: the stutter count returned by `detect_stuttering` equals the number
of rising edges of the per-frame below-threshold flags, i.e. the number of
indices i ≥ 1 at which frame i is below the threshold and frame i-1 is
not. -/
theorem C4_stutter_count_is_rising_edges (energy : List ℚ)
    (duration_seconds threshold : ℚ) :
    (detect_stuttering energy duration_seconds threshold).stutter_count =
      risingEdgeCount (energy.map (fun e => decide (e < threshold))) := by
  simpa [detect_stuttering] using
    countStutters_eq_risingEdgeCount (energy.map (fun e => decide (e < threshold)))

/-- C1 counterexample: with energy frames [2, 0], threshold 1 and duration
60 s, `detect_stuttering` finds one stutter, and the rate field is 1/60
(per second), not 1 = count / (duration in minutes) as claimed. -/
theorem C1_counterexample :
    (detect_stuttering [2, 0] 60 1).stutter_rate_per_sec ≠
      ((detect_stuttering [2, 0] 60 1).stutter_count : ℚ) / (60 / 60) := by
  have h1 : decide ((2 : ℚ) < 1) = false := decide_eq_false (by norm_num)
  have h2 : decide ((0 : ℚ) < 1) = true := decide_eq_true (by norm_num)
  simp [detect_stuttering, countStutters, stutterLoop, h1, h2]

/-- C1 amended: the rate field of `detect_stuttering` is the stutter count
divided by the audio duration in seconds (a per-second rate, matching the
field name `stutter_rate_per_sec`), and 0 when the duration is not
positive. -/
theorem C1_rate_is_per_second (energy : List ℚ) (duration_seconds threshold : ℚ) :
    (0 < duration_seconds →
      (detect_stuttering energy duration_seconds threshold).stutter_rate_per_sec =
        ((detect_stuttering energy duration_seconds threshold).stutter_count : ℚ) /
          duration_seconds) ∧
    (duration_seconds ≤ 0 →
      (detect_stuttering energy duration_seconds threshold).stutter_rate_per_sec = 0) := by
  constructor
  · intro h
    simp [detect_stuttering, h]
  · intro h
    simp [detect_stuttering, not_lt.mpr h]

/-- C1 witness: the amended statement at energy [2, 0], duration 60 s. -/
theorem C1_rate_is_per_second_witness :
    (0 : ℚ) < 60 ∧
      (detect_stuttering [2, 0] 60 1).stutter_rate_per_sec =
        ((detect_stuttering [2, 0] 60 1).stutter_count : ℚ) / 60 :=
  ⟨by norm_num, (C1_rate_is_per_second [2, 0] 60 1).1 (by norm_num)⟩

/-- C10: `calculate_speaking_rate` is total; for every transcript and every
non-positive duration it returns exactly 0.0, the division being guarded by
duration_sec > 0. -/
theorem C10_rate_zero_on_nonpositive_duration (asr_text : String) (duration_sec : ℚ)
    (h : duration_sec ≤ 0) : calculate_speaking_rate asr_text duration_sec = 0 := by
  simp [calculate_speaking_rate, h]

/-- C10 witness: duration -3 yields rate 0. -/
theorem C10_rate_zero_witness :
    (-3 : ℚ) ≤ 0 ∧ calculate_speaking_rate ("hello world") (-3) = 0 :=
  ⟨by norm_num, C10_rate_zero_on_nonpositive_duration ("hello world") (-3) (by norm_num)⟩

/-- C5: whenever the effective duration (ASR duration if positive, else the
file duration) is positive, the speaking rate computed by the analysis is
the whitespace word count divided by the effective duration, times 60. -/
theorem C5_speaking_rate_formula (transcript : String) (asr_duration duration : ℚ)
    (h : 0 < effective_duration asr_duration duration) :
    analyze_speaking_rate transcript asr_duration duration =
      ((pyWords transcript).length : ℚ) / effective_duration asr_duration duration * 60 := by
  simp [analyze_speaking_rate, calculate_speaking_rate, not_le.mpr h]

set_option maxRecDepth 4000 in
/-- C5 witness: a 150-word transcript over an effective duration of 60
seconds (ASR duration 60, file duration 0) gives 150 wpm. -/
theorem C5_speaking_rate_witness :
    0 < effective_duration 60 0 ∧
      analyze_speaking_rate (String.intercalate (" ") (List.replicate 150 ("a"))) 60 0 = 150 := by
  have heff : effective_duration 60 0 = 60 := by norm_num [effective_duration]
  refine ⟨by rw [heff]; norm_num, ?_⟩
  rw [C5_speaking_rate_formula _ _ _ (by rw [heff]; norm_num)]
  rw [show (pyWords (String.intercalate (" ") (List.replicate 150 ("a")))).length = 150 from by decide]
  rw [heff]
  norm_num

/-- C8: for any audio longer than 6 seconds with stutter count 0, the
stutter feedback is the no-stuttering message, whatever the duration. -/
theorem C8_zero_stutters_feedback (c : ℕ) (d : ℚ) (hd : 6 < d) (hc : c = 0) :
    get_stuttering_feedback c d = noStutterMsg := by
  subst hc
  rw [get_stuttering_feedback, if_neg (by linarith : ¬ d ≤ 0)]
  rw [if_neg (by rw [not_lt]; linarith : ¬ d / 60 < 1 / 10)]
  simp

/-- C8 witness: duration 7 s, zero stutters. -/
theorem C8_zero_stutters_witness :
    (6 : ℚ) < 7 ∧ get_stuttering_feedback 0 7 = noStutterMsg :=
  ⟨by norm_num, C8_zero_stutters_feedback 0 7 (by norm_num) rfl⟩

/-- C3: `convert_rms_to_db` clamps every non-positive RMS value to exactly
-120.0 instead of raising, and returns 20·log10(rms) for positive RMS. -/
theorem C3_rms_to_db (rms_value : ℝ) :
    (rms_value ≤ 0 → convert_rms_to_db rms_value = -120) ∧
    (0 < rms_value → convert_rms_to_db rms_value = 20 * Real.logb 10 rms_value) := by
  constructor
  · intro h
    simp [convert_rms_to_db, h]
  · intro h
    simp [convert_rms_to_db, not_le.mpr h]

/-- C3 witness: both branches at concrete inputs -1 and 2. -/
theorem C3_rms_to_db_witness :
    ((-1 : ℝ) ≤ 0 ∧ convert_rms_to_db (-1) = -120) ∧
    ((0 : ℝ) < 2 ∧ convert_rms_to_db 2 = 20 * Real.logb 10 2) :=
  ⟨⟨by norm_num, (C3_rms_to_db (-1)).1 (by norm_num)⟩,
   ⟨by norm_num, (C3_rms_to_db 2).2 (by norm_num)⟩⟩

/-- C2 counterexample: at average pitch exactly 0 (with speaking rate 120
and volume -15 dB), the pitch feedback is not the low-pitch message even
though 0 < 100, refuting the claimed equivalence of low-pitch feedback with
pitch < 100. -/
theorem C2_counterexample :
    (0 : ℚ) < 100 ∧
      (generate_audio_feedback ⟨120, 0⟩ (some (-15))).pitch_feedback ≠ pitchLowMsg := by
  refine ⟨by norm_num, ?_⟩
  have h : (generate_audio_feedback ⟨120, 0⟩ (some (-15))).pitch_feedback =
      pitchImpossibleMsg := by
    simp [generate_audio_feedback]
  rw [h]
  decide

/-- C2 amended: `generate_audio_feedback` selects each feedback string by
fixed strict-inequality thresholds — speed slow iff rate < 110, fast iff
rate > 160, adequate iff 110 ≤ rate ≤ 160; pitch low iff the pitch is
nonzero and < 100 Hz (pitch exactly 0 gets a separate analysis-impossible
message), high iff > 250, stable iff 100 ≤ pitch ≤ 250; volume too-quiet
iff dB < -20, too-loud iff dB > -10, adequate iff -20 ≤ dB ≤ -10; so the
boundary values 110, 160, 100, 250, -20, -10 all map to the middle band. -/
theorem C2_threshold_bands (features : AudioFeatures) (db : ℚ)
    (r : AudioFeedbackResult) (hr : r = generate_audio_feedback features (some db)) :
    (r.speed_feedback = speedSlowMsg ↔ features.speaking_rate_wpm < 110) ∧
    (r.speed_feedback = speedFastMsg ↔ 160 < features.speaking_rate_wpm) ∧
    (r.speed_feedback = speedOkMsg ↔
      110 ≤ features.speaking_rate_wpm ∧ features.speaking_rate_wpm ≤ 160) ∧
    (r.pitch_feedback = pitchLowMsg ↔
      features.avg_pitch_hz ≠ 0 ∧ features.avg_pitch_hz < 100) ∧
    (r.pitch_feedback = pitchHighMsg ↔ 250 < features.avg_pitch_hz) ∧
    (r.pitch_feedback = pitchOkMsg ↔
      100 ≤ features.avg_pitch_hz ∧ features.avg_pitch_hz ≤ 250) ∧
    (r.volume_feedback = volumeQuietMsg ↔ db < -20) ∧
    (r.volume_feedback = volumeLoudMsg ↔ -10 < db) ∧
    (r.volume_feedback = volumeOkMsg ↔ -20 ≤ db ∧ db ≤ -10) := by
  subst hr
  exact ⟨speed_slow_iff features (some db), speed_fast_iff features (some db),
    speed_ok_iff features (some db), pitch_low_iff features (some db),
    pitch_high_iff features (some db), pitch_ok_iff features (some db),
    volume_quiet_iff features db, volume_loud_iff features db,
    volume_ok_iff features db⟩

/-- C2 witness: all six boundary values map to the middle band. -/
theorem C2_threshold_bands_witness :
    (generate_audio_feedback ⟨110, 100⟩ (some (-20))).speed_feedback = speedOkMsg ∧
    (generate_audio_feedback ⟨110, 100⟩ (some (-20))).pitch_feedback = pitchOkMsg ∧
    (generate_audio_feedback ⟨110, 100⟩ (some (-20))).volume_feedback = volumeOkMsg ∧
    (generate_audio_feedback ⟨160, 250⟩ (some (-10))).speed_feedback = speedOkMsg ∧
    (generate_audio_feedback ⟨160, 250⟩ (some (-10))).pitch_feedback = pitchOkMsg ∧
    (generate_audio_feedback ⟨160, 250⟩ (some (-10))).volume_feedback = volumeOkMsg :=
  ⟨((C2_threshold_bands ⟨110, 100⟩ (-20) _ rfl).2.2.1).mpr (by norm_num),
   ((C2_threshold_bands ⟨110, 100⟩ (-20) _ rfl).2.2.2.2.2.1).mpr (by norm_num),
   ((C2_threshold_bands ⟨110, 100⟩ (-20) _ rfl).2.2.2.2.2.2.2.2).mpr (by norm_num),
   ((C2_threshold_bands ⟨160, 250⟩ (-10) _ rfl).2.2.1).mpr (by norm_num),
   ((C2_threshold_bands ⟨160, 250⟩ (-10) _ rfl).2.2.2.2.2.1).mpr (by norm_num),
   ((C2_threshold_bands ⟨160, 250⟩ (-10) _ rfl).2.2.2.2.2.2.2.2).mpr (by norm_num)⟩

/-- C9: an average pitch of exactly 0 — which is what the analysis produces
when no pitch candidate survives the median-magnitude mask — makes
`generate_audio_feedback` return the distinct analysis-impossible message
instead of the low-pitch message, and that message never appears in the
summary text. -/
theorem C9_pitch_zero_special_message :
    avgPitchOf [] = 0 ∧
    ∀ (features : AudioFeatures) (db : Option ℚ), features.avg_pitch_hz = 0 →
      (generate_audio_feedback features db).pitch_feedback = pitchImpossibleMsg ∧
      pitchImpossibleMsg ≠ pitchLowMsg ∧
      pyContains (generate_audio_feedback features db).summary pitchImpossibleMsg = false := by
  constructor
  · simp [avgPitchOf]
  · intro features db h
    refine ⟨by rw [pitch_feedback_eq, if_pos h], by decide, ?_⟩
    by_cases h1 : features.speaking_rate_wpm < 110 <;>
    by_cases h2 : features.speaking_rate_wpm > 160 <;>
    rcases db with _ | db <;>
    first
      | (simp [generate_audio_feedback, h, h1, h2] <;> decide)
      | (by_cases h3 : db < -20 <;> by_cases h4 : db > -10 <;>
          simp [generate_audio_feedback, h, h1, h2, h3, h4] <;> decide)

/-- C9 witness: speaking rate 120, pitch 0, volume -15 dB. -/
theorem C9_pitch_zero_witness :
    (generate_audio_feedback ⟨120, 0⟩ (some (-15))).pitch_feedback = pitchImpossibleMsg ∧
    pyContains (generate_audio_feedback ⟨120, 0⟩ (some (-15))).summary
      pitchImpossibleMsg = false :=
  ⟨(C9_pitch_zero_special_message.2 ⟨120, 0⟩ (some (-15)) rfl).1,
   (C9_pitch_zero_special_message.2 ⟨120, 0⟩ (some (-15)) rfl).2.2⟩

/-- C6: with the default 3 retries, `notify_status` performs at most 3
POSTs, sleeps 1 s then 2 s before the second and third attempts, stops
with success at the first 2xx response, and returns failure (without
raising) when no attempt gets a 2xx. -/
theorem C6_notify_retry_policy (responses : ℕ → Option ℕ) :
    (notify_status responses 3).posts ≤ 3 ∧
    (notify_status responses 3).sleeps =
      List.take ((notify_status responses 3).posts - 1) [(1 : ℚ), 2] ∧
    (∀ k, 1 ≤ k → k ≤ 3 → is2xx (responses k) = true →
      (∀ j, 1 ≤ j → j < k → is2xx (responses j) = false) →
      (notify_status responses 3).result = true ∧
        (notify_status responses 3).posts = k) ∧
    ((∀ j, 1 ≤ j → j ≤ 3 → is2xx (responses j) = false) →
      (notify_status responses 3).result = false ∧
        (notify_status responses 3).posts = 3) := by
  cases hb1 : is2xx (responses 1)
  case true =>
    have hT : notify_status responses 3 = ⟨1, [], true⟩ := by
      simp [notify_status, notifyAux, hb1]
    rw [hT]
    refine ⟨by norm_num, rfl, ?_, ?_⟩
    · intro k hk1 hk3 htrue hprev
      interval_cases k
      · exact ⟨rfl, rfl⟩
      · have hc := hprev 1 (by norm_num) (by norm_num)
        rw [hb1] at hc; simp at hc
      · have hc := hprev 1 (by norm_num) (by norm_num)
        rw [hb1] at hc; simp at hc
    · intro hall
      have hc := hall 1 (by norm_num) (by norm_num)
      rw [hb1] at hc; simp at hc
  case false =>
    cases hb2 : is2xx (responses 2)
    case true =>
      have hT : notify_status responses 3 = ⟨2, [1], true⟩ := by
        simp [notify_status, notifyAux, hb1, hb2]
      rw [hT]
      refine ⟨by norm_num, rfl, ?_, ?_⟩
      · intro k hk1 hk3 htrue hprev
        interval_cases k
        · rw [hb1] at htrue; simp at htrue
        · exact ⟨rfl, rfl⟩
        · have hc := hprev 2 (by norm_num) (by norm_num)
          rw [hb2] at hc; simp at hc
      · intro hall
        have hc := hall 2 (by norm_num) (by norm_num)
        rw [hb2] at hc; simp at hc
    case false =>
      cases hb3 : is2xx (responses 3)
      case true =>
        have hT : notify_status responses 3 = ⟨3, [1, 2], true⟩ := by
          simp [notify_status, notifyAux, hb1, hb2, hb3]
        rw [hT]
        refine ⟨by norm_num, rfl, ?_, ?_⟩
        · intro k hk1 hk3 htrue hprev
          interval_cases k
          · rw [hb1] at htrue; simp at htrue
          · rw [hb2] at htrue; simp at htrue
          · exact ⟨rfl, rfl⟩
        · intro hall
          have hc := hall 3 (by norm_num) (by norm_num)
          rw [hb3] at hc; simp at hc
      case false =>
        have hT : notify_status responses 3 = ⟨3, [1, 2], false⟩ := by
          simp [notify_status, notifyAux, hb1, hb2, hb3]
        rw [hT]
        refine ⟨by norm_num, rfl, ?_, ?_⟩
        · intro k hk1 hk3 htrue hprev
          interval_cases k
          · rw [hb1] at htrue; simp at htrue
          · rw [hb2] at htrue; simp at htrue
          · rw [hb3] at htrue; simp at htrue
        · intro hall
          exact ⟨rfl, rfl⟩

/-- C6 witness: every attempt answers 204, so the first POST succeeds with
no sleeps. -/
theorem C6_notify_retry_witness :
    (notify_status (fun _ => some 204) 3).result = true ∧
      (notify_status (fun _ => some 204) 3).posts = 1 :=
  (C6_notify_retry_policy (fun _ => some 204)).2.2.1 1 (by norm_num) (by norm_num)
    (by decide) (fun j hj1 hj2 => absurd (lt_of_le_of_lt hj1 hj2) (by norm_num))

/-- C7: `process_audio` isolates failures per job.  A failed download sets
the job status to FAILED and posts a FAILED payload with the failure
message; an exception during analysis sets FAILED and posts a FAILED
payload carrying the exception message plus traceback truncated to at most
4000 characters; success sets COMPLETED and posts the result.  The model
is a total function, mirroring that no error escapes to the host
process. -/
theorem C7_process_audio_outcomes (α : Type) (downloadOk : Bool)
    (amain : AmainOutcome α) (errTrace analysis_id presentation_id : String)
    (t : ProcessTrace α)
    (ht : t = process_audio downloadOk amain errTrace analysis_id presentation_id) :
    (downloadOk = false →
      t.statusUpdates.getLast? = some ("FAILED") ∧ t.callback.status = "FAILED" ∧
      t.callback.message = some ("Download failed")) ∧
    (∀ msg trace, downloadOk = true → amain = AmainOutcome.raised msg trace →
      t.statusUpdates.getLast? = some ("FAILED") ∧ t.callback.status = "FAILED" ∧
      t.callback.message = some (pySlice (msg ++ "\n\n" ++ trace) 4000) ∧
      ∀ m, t.callback.message = some m → m.length ≤ 4000) ∧
    (∀ r, downloadOk = true → amain = AmainOutcome.dictResult r →
      t.statusUpdates.getLast? = some ("COMPLETED") ∧ t.callback.status = "COMPLETED" ∧
      t.callback.result = some r) := by
  subst ht
  refine ⟨?_, ?_, ?_⟩
  · intro hdl; subst hdl; simp [process_audio]
  · intro msg trace hdl ham; subst hdl; subst ham
    refine ⟨by simp [process_audio], by simp [process_audio],
      by simp [process_audio, failMessage], ?_⟩
    intro m hm
    have hme : m = pySlice (msg ++ "\n\n" ++ trace) 4000 := by
      have hm2 := hm
      simp [process_audio, failMessage] at hm2
      exact hm2.symm
    have h1 : (pySlice (msg ++ "\n\n" ++ trace) 4000).length
        = ((msg ++ "\n\n" ++ trace).data.take 4000).length := rfl
    rw [hme, h1, List.length_take]
    exact min_le_left _ _
  · intro r hdl ham; subst hdl; subst ham; simp [process_audio]

/-- C7 witness: an analysis exception with message boom and traceback tb on
a successful download, result type ℕ. -/
theorem C7_process_audio_witness :
    ((process_audio true (AmainOutcome.raised ("boom") ("tb")) ("") ("aid") ("pid") :
        ProcessTrace ℕ).statusUpdates.getLast? = some ("FAILED")) ∧
    ((process_audio true (AmainOutcome.raised ("boom") ("tb")) ("") ("aid") ("pid") :
        ProcessTrace ℕ).callback.message =
      some (pySlice (("boom") ++ "\n\n" ++ ("tb")) 4000)) :=
  ⟨((C7_process_audio_outcomes ℕ true (AmainOutcome.raised ("boom") ("tb")) ("") ("aid") ("pid")
      _ rfl).2.1 ("boom") ("tb") rfl rfl).1,
   ((C7_process_audio_outcomes ℕ true (AmainOutcome.raised ("boom") ("tb")) ("") ("aid") ("pid")
      _ rfl).2.1 ("boom") ("tb") rfl rfl).2.2.1⟩
